import Mathlib

/-!
Shallow embedding of the context-aware query-expansion dialogue tracker
(src/app.py).  Python strings are Lean `String`; Python `Optional[str]` is
`Option String`; Python floats holding confidences are modelled as exact
rationals `ℚ` (the decay factor 0.85 is `17/20`, the threshold 0.2 is `1/5`).
Python truthiness of an optional string (None and "" are falsy) is made
explicit by `truthy`.  The external joblib topic classifier
(`predict_topic`) is a parameter `clf : String → String` of every function
that calls it.  Mutating Python methods become state-passing functions.
-/

/-- Python `str.lower()` restricted to the ASCII inputs this program uses. -/
def lower (s : String) : String := ⟨s.toList.map Char.toLower⟩

/-- Drop whitespace from both ends of a character list (Python `str.strip()`). -/
def wsStrip (l : List Char) : List Char :=
  ((l.dropWhile Char.isWhitespace).reverse.dropWhile Char.isWhitespace).reverse

/-- Python `str.strip()`. -/
def trimWs (s : String) : String := ⟨wsStrip s.toList⟩

/-- Scan for the needle at every suffix of the haystack. -/
def subScan (needle : List Char) : List Char → Bool
  | [] => needle.isEmpty
  | c :: cs => List.isPrefixOf needle (c :: cs) || subScan needle cs

/-- Python `needle in hay` on strings: substring containment. -/
def containsSubstr (needle hay : String) : Bool :=
  subScan needle.toList hay.toList

/-- Python `s.startswith(pre)`. -/
def startsWithStr (pre s : String) : Bool :=
  List.isPrefixOf pre.toList s.toList

/-- Helper for `splitWs`: accumulate the current word (reversed) while
scanning; words are maximal runs of non-whitespace, empties dropped. -/
def splitWsAux : List Char → List Char → List String
  | [], acc => if acc.isEmpty then [] else [⟨acc.reverse⟩]
  | c :: cs, acc =>
    if c.isWhitespace then
      if acc.isEmpty then splitWsAux cs []
      else ⟨acc.reverse⟩ :: splitWsAux cs []
    else splitWsAux cs (c :: acc)

/-- Python `str.split()` with no separator: split on whitespace runs,
discarding empty pieces. -/
def splitWs (s : String) : List String := splitWsAux s.toList []

/-- Helper for `title`: the Bool records whether the previous character was
alphabetic. -/
def titleAux : Bool → List Char → List Char
  | _, [] => []
  | prevAlpha, c :: cs =>
    if c.isAlpha then
      (if prevAlpha then c.toLower else c.toUpper) :: titleAux true cs
    else c :: titleAux false cs

/-- Python `str.title()` for ASCII text: upper-case the first letter of every
alphabetic run, lower-case the rest. -/
def title (s : String) : String := ⟨titleAux false s.toList⟩

/-- Python `s.replace(c, "")` for a one-character pattern: remove every
occurrence of the character. -/
def removeChar (c : Char) (s : String) : String :=
  ⟨s.toList.filter (fun a => a ≠ c)⟩

/-- Python truthiness of an `Optional[str]`: `None` and `""` are falsy. -/
def truthy : Option String → Bool
  | none => false
  | some v => v ≠ ""

/-- Python `o or d` for an optional string `o` and default `d`. -/
def pyOr (o : Option String) (d : String) : String :=
  if truthy o then o.getD "" else d

/-- One decaying belief slot: `value` plus `confidence` (src/app.py,
class ContextFrame). -/
structure ContextFrame where
  value : Option String
  confidence : ℚ
deriving DecidableEq

/-- ContextFrame.decay with the default factor 0.85: multiply the confidence
by 17/20 and clear the value once the confidence falls below 1/5. -/
def ContextFrame.decay (f : ContextFrame) : ContextFrame :=
  if f.confidence * (17/20) < 1/5 then ⟨none, f.confidence * (17/20)⟩
  else ⟨f.value, f.confidence * (17/20)⟩

/-- Iterated decay: `decayN n f` is `decay` applied `n` times to `f`. -/
def ContextFrame.decayN : Nat → ContextFrame → ContextFrame
  | 0, f => f
  | n + 1, f => ContextFrame.decay (ContextFrame.decayN n f)

/-- A frame as freshly constructed by `ContextFrame()` in Python. -/
def emptyFrame : ContextFrame := ⟨none, 0⟩

/-- The four-slot dialogue state (src/app.py, class DialogueState). -/
structure DialogueState where
  domain : ContextFrame
  subject : ContextFrame
  role : ContextFrame
  intent : ContextFrame
deriving DecidableEq

/-- DialogueState.decay_all: decay every frame once. -/
def DialogueState.decay_all (s : DialogueState) : DialogueState :=
  ⟨s.domain.decay, s.subject.decay, s.role.decay, s.intent.decay⟩

/-- The value content of a snapshot: the four frames' data, as recorded by
DialogueState.snapshot (the dict of the four frames' field dicts). -/
structure StateSnapshot where
  domain : ContextFrame
  subject : ContextFrame
  role : ContextFrame
  intent : ContextFrame
deriving DecidableEq

/-- DialogueState.snapshot read at value level: the four frames' current
contents.  (Object-identity aspects of the Python `vars(...)` aliasing are
modelled separately in the heap model below.) -/
def DialogueState.snapshot (s : DialogueState) : StateSnapshot :=
  ⟨s.domain, s.subject, s.role, s.intent⟩

/-- A dialogue state with all four frames freshly constructed. -/
def emptyState : DialogueState := ⟨emptyFrame, emptyFrame, emptyFrame, emptyFrame⟩

/-- The configured country list (src/app.py, COUNTRIES). -/
def COUNTRIES : List String := ["india", "uk", "us", "germany", "france", "australia"]

/-- The contextual-continuation trigger list (src/app.py, CONTEXT_TRIGGERS). -/
def CONTEXT_TRIGGERS : List String :=
  ["what about", "and what about", "his", "her", "their",
   "same there", "same here", "more about", "and there"]

/-- The stop-word block list of detect_subject (src/app.py, `blocked`). -/
def BLOCKED : List String :=
  ["who", "what", "about", "is", "pm", "captain",
   "coach", "minister", "president", "leader"]

/-- detect_dialogue_act (src/app.py): first-match-wins over chit-chat
substrings, then topic-shift substrings, then continuation triggers
(prefix match or whole-token membership), default fresh_query. -/
def detect_dialogue_act (text : String) : String :=
  let t := trimWs (lower text)
  if ["thanks", "wait", "ok", "fine"].any (fun x => containsSubstr x t) then
    "chit_chat"
  else if ["now tell me", "switch to", "change topic"].any (fun x => containsSubstr x t) then
    "topic_shift"
  else if CONTEXT_TRIGGERS.any (fun x => startsWithStr x t || (splitWs t).contains x) then
    "contextual_continuation"
  else
    "fresh_query"

/-- detect_role (src/app.py). -/
def detect_role (text : String) : Option String :=
  let t := lower text
  if containsSubstr "prime minister" t || containsSubstr "pm" t then some "Prime Minister"
  else if containsSubstr "captain" t then some "Captain"
  else if containsSubstr "coach" t then some "Coach"
  else none

/-- detect_subject (src/app.py): tier 1 scans COUNTRIES for a substring of
the lower-cased text (first match in list order); the fallback removes every
question mark and period, splits on whitespace, and title-cases the last
word unless it is blocked. -/
def detect_subject (text : String) : Option String :=
  let t := lower text
  match COUNTRIES.find? (fun c => containsSubstr c t) with
  | some c => some (title c)
  | none =>
    let words := splitWs (removeChar '.' (removeChar '?' t))
    if words.isEmpty then none
    else
      let candidate := title (words.getLast?.getD "")
      if BLOCKED.contains (lower candidate) then none
      else some candidate

/-- detect_intent (src/app.py): duties beats who beats info. -/
def detect_intent (text : String) : Option String :=
  let t := lower text
  if containsSubstr "duties" t || containsSubstr "responsibilities" t then some "duties"
  else if containsSubstr "who" t then some "who"
  else if containsSubstr "about" t then some "info"
  else none

/-- The normalisation at the top of update_state_from_text: the classifier
label "Unknown" becomes None; any other label is kept. -/
def normalize_domain (d : String) : Option String :=
  if d = "Unknown" then none else some d

/-- update_state_from_text (src/app.py), parametric in the external topic
classifier `clf`: normalise the predicted domain; on a truthy domain that
differs from the held one, replace subject/role/intent with fresh frames;
then assign every truthy detected value with confidence 1. -/
def update_state_from_text (clf : String → String) (text : String)
    (s : DialogueState) : DialogueState :=
  let nd := normalize_domain (clf text)
  let s1 := if truthy nd ∧ nd ≠ s.domain.value then
      ⟨s.domain, emptyFrame, emptyFrame, emptyFrame⟩
    else s
  let role := detect_role text
  let subject := detect_subject text
  let intent := detect_intent text
  let s2 := if truthy nd then ⟨(⟨nd, 1⟩ : ContextFrame), s1.subject, s1.role, s1.intent⟩ else s1
  let s3 := if truthy subject then ⟨s2.domain, (⟨subject, 1⟩ : ContextFrame), s2.role, s2.intent⟩ else s2
  let s4 := if truthy role then ⟨s3.domain, s3.subject, (⟨role, 1⟩ : ContextFrame), s3.intent⟩ else s3
  if truthy intent then ⟨s4.domain, s4.subject, s4.role, (⟨intent, 1⟩ : ContextFrame)⟩ else s4

/-- expand_query (src/app.py) in state-passing form: the returned state is
whatever the body leaves the state as (the body only reads it). -/
def expand_query (user_text : String) (s : DialogueState) (act : String) :
    (Option String × Option String) × DialogueState :=
  if act ≠ "contextual_continuation" then ((none, none), s)
  else
    let t := lower user_text
    if ¬ truthy s.role.value ∧ ¬ truthy s.subject.value then
      ((none, some "clarify: not enough context"), s)
    else if containsSubstr "what about" t then
      let new_subject := detect_subject user_text
      if truthy new_subject then
        if truthy s.role.value then
          ((some ("Who is the " ++ s.role.value.getD "" ++ " of " ++
                   new_subject.getD "" ++ "?"), none), s)
        else
          ((some ("Tell me more about " ++ new_subject.getD "" ++ "."), none), s)
      else if truthy s.role.value ∧ truthy s.subject.value then
        ((some ("Who is the " ++ s.role.value.getD "" ++ " of " ++
                 s.subject.value.getD "" ++ "?"), none), s)
      else
        ((none, some "clarify: what exactly do you mean?"), s)
    else if containsSubstr "duties" t || containsSubstr "responsibilities" t then
      if truthy s.role.value ∧ truthy s.subject.value then
        ((some ("What are the duties of the " ++ s.role.value.getD "" ++ " of " ++
                 s.subject.value.getD "" ++ "?"), none), s)
      else
        ((none, some "clarify: whose duties?"), s)
    else if truthy s.role.value ∧ truthy s.subject.value then
      ((some ("Tell me more about the " ++ s.role.value.getD "" ++ " of " ++
               s.subject.value.getD "" ++ "."), none), s)
    else
      ((none, some "clarify: cannot infer expansion"), s)

/-- The static KNOWLEDGE table (src/app.py). -/
def KNOWLEDGE : List ((String × String) × String) :=
  [(("Prime Minister", "India"), "Narendra Modi"),
   (("Prime Minister", "US"), "Joe Biden"),
   (("Prime Minister", "UK"), "Rishi Sunak"),
   (("Captain", "India"), "Rohit Sharma"),
   (("Captain", "US"), "Varies by team and sport."),
   (("Captain", "UK"), "Depends on the team.")]

/-- Lookup in KNOWLEDGE (Python dict access guarded by membership). -/
def knowledge_lookup (k : String × String) : Option String :=
  (KNOWLEDGE.find? (fun p => p.1 = k)).map (fun p => p.2)

/-- The static DUTIES table (src/app.py). -/
def DUTIES : List (String × String) :=
  [("Prime Minister",
    "Leads the government, sets national policy, chairs the cabinet, represents the country internationally, and oversees administration."),
   ("Captain",
    "Leads strategy on the field, motivates teammates, coordinates with coaches, and makes tactical decisions during play.")]

/-- Lookup in DUTIES; a None role is never a key (Python `role in DUTIES`). -/
def duties_lookup (r : Option String) : Option String :=
  match r with
  | some v => (DUTIES.find? (fun p => p.1 = v)).map (fun p => p.2)
  | none => none

/-- answer (src/app.py): duties branch first, then knowledge lookup, then a
templated fallback when role and subject are both truthy, else None. -/
def answer (expanded : Option String) (s : DialogueState) : Option String :=
  let text := pyOr expanded ""
  let role := s.role.value
  let subject := s.subject.value
  if containsSubstr "duties" (lower text) then
    match duties_lookup role with
    | some d => some d
    | none => some "I don\x27t have role responsibilities for this case yet."
  else if truthy role ∧ truthy subject then
    match knowledge_lookup (role.getD "", subject.getD "") with
    | some v => some v
    | none => some ("I don\x27t have the exact answer for " ++ role.getD "" ++
                    " of " ++ subject.getD "" ++ " yet.")
  else none

/-- assign_topic (src/app.py): on a truthy domain value, pair it with the
subject value or "NA"; otherwise the ("General", "NA") default.  The text
argument is accepted and ignored, as in the source. -/
def assign_topic (_text : String) (s : DialogueState) : String × String :=
  match s.domain.value with
  | some d => if d = "" then ("General", "NA") else (d, pyOr s.subject.value "NA")
  | none => ("General", "NA")

/-- The result tuple of process_turn, as a record in the source's field
order: (expanded, topic, note, answer, snapshot). -/
structure TurnResult where
  expanded : Option String
  topic : String × String
  note : Option String
  answer : Option String
  snap : StateSnapshot
deriving DecidableEq

/-- The contextual-continuation arm of process_turn (src/app.py): a truthy
raw prediction that differs from the held domain value switches via the full
update; otherwise the update runs and the domain value is written back. -/
def continuation_update (clf : String → String) (text : String)
    (s0 : DialogueState) : DialogueState :=
  if clf text ≠ "" ∧ (some (clf text) : Option String) ≠ s0.domain.value then
    update_state_from_text clf text s0
  else
    let s1 := update_state_from_text clf text s0
    ⟨⟨s0.domain.value, s1.domain.confidence⟩, s1.subject, s1.role, s1.intent⟩

/-- process_turn (src/app.py): decay, classify the act, short-circuit
chit-chat, apply the act-specific update policy, expand, tag the topic,
answer, and return the result with a snapshot plus the final state. -/
def process_turn (clf : String → String) (text : String)
    (s : DialogueState) : TurnResult × DialogueState :=
  let s0 := s.decay_all
  let act := detect_dialogue_act text
  if act = "chit_chat" then
    (⟨none, ("General", "NA"), some "chit_chat", none, s0.snapshot⟩, s0)
  else
    let s1 := if act = "contextual_continuation" then continuation_update clf text s0
              else update_state_from_text clf text s0
    let er := expand_query text s1 act
    let expanded := er.1.1
    let note := er.1.2
    let s2 := er.2
    (⟨expanded, assign_topic (pyOr expanded text) s2, note, answer expanded s2,
       s2.snapshot⟩, s2)

/-!
Reference-level (heap) model of snapshotting.  Python objects live on a heap
and `vars(obj)` returns the object's own attribute dictionary, not a copy:
the dict returned for each frame by DialogueState.snapshot is the very
attribute storage of the live frame.  Frames are heap cells addressed by
naturals; the live state and a snapshot both hold addresses; reading goes
through the heap, and mutating a frame's attributes writes the heap cell.
-/

/-- A heap of frame objects, addressed by position. -/
def FrameHeap := List ContextFrame

/-- The live DialogueState at reference level: one heap address per frame. -/
structure RefState where
  domain : Nat
  subject : Nat
  role : Nat
  intent : Nat
deriving DecidableEq

/-- A snapshot at reference level: the addresses it records.  Python
`vars(frame)` hands out the frame's own attribute dict, so the snapshot
records the same addresses as the live state. -/
structure SnapRefs where
  domain : Nat
  subject : Nat
  role : Nat
  intent : Nat
deriving DecidableEq

/-- Dereference one frame address. -/
def readFrame (h : FrameHeap) (a : Nat) : ContextFrame :=
  List.getD h a emptyFrame

/-- Overwrite the attributes of the frame object at an address. -/
def writeFrame (h : FrameHeap) (a : Nat) (f : ContextFrame) : FrameHeap :=
  List.set h a f

/-- DialogueState.snapshot at reference level: a fresh outer record whose
four entries are the frames' own attribute dicts (the same addresses). -/
def snapshot_refs (s : RefState) : SnapRefs :=
  ⟨s.domain, s.subject, s.role, s.intent⟩

/-- Read the values a snapshot displays, by dereferencing its addresses. -/
def read_snapshot (h : FrameHeap) (sn : SnapRefs) : StateSnapshot :=
  ⟨readFrame h sn.domain, readFrame h sn.subject, readFrame h sn.role, readFrame h sn.intent⟩

/-- Read the live frames of a reference-level state. -/
def read_state (h : FrameHeap) (s : RefState) : StateSnapshot :=
  ⟨readFrame h s.domain, readFrame h s.subject, readFrame h s.role, readFrame h s.intent⟩

/-- Detector-driven assignment, mutating a live frame in place as
update_state_from_text does: value becomes the detected string, confidence
becomes 1. -/
def assign_at (h : FrameHeap) (a : Nat) (v : String) : FrameHeap :=
  writeFrame h a ⟨some v, 1⟩

/-!
Definitions written from the claims' own words, for comparison against the
source-derived definitions above.
-/

/-- Modelled from the claim on assign_topic: the topic as the spec words it,
domain value or "General" paired with subject value or "NA". -/
def topic_claim (s : DialogueState) : String × String :=
  (pyOr s.domain.value "General", pyOr s.subject.value "NA")

/-- Modelled from the claim on detect_subject's fallback tier: strip the
trailing question marks, periods, commas and exclamation marks, split on
whitespace, require at least 3 words, title-case the last word and reject it
when blocked. -/
def subject_fallback_claim (text : String) : Option String :=
  let t := lower text
  let stripped : List Char :=
    ((t.toList.reverse.dropWhile
        (fun c => c == '?' || c == '.' || c == ',' || c == '!')).reverse)
  let words := splitWs ⟨stripped⟩
  if words.length < 3 then none
  else
    let candidate := title (words.getLast?.getD "")
    if BLOCKED.contains (lower candidate) then none
    else some candidate

/-- The fallback tier of detect_subject as the source has it: remove every
question mark and period, split on whitespace, return none when no words
remain, otherwise the title-cased last word unless blocked. -/
def subject_fallback (text : String) : Option String :=
  let words := splitWs (removeChar '.' (removeChar '?' (lower text)))
  match words.getLast? with
  | none => none
  | some w =>
    if BLOCKED.contains (lower (title w)) then none
    else some (title w)

/-!
Concrete classifiers and states used by witnesses and counterexamples.
-/

/-- A deterministic classifier that always predicts Politics. -/
def clfPolitics : String → String := fun _ => "Politics"

/-- A deterministic classifier that always answers the Unknown label. -/
def clfUnknown : String → String := fun _ => "Unknown"

/-- A state holding a Sports domain with subject and role populated. -/
def stateSports : DialogueState :=
  ⟨⟨some "Sports", 1⟩, ⟨some "India", 1⟩, ⟨some "Captain", 1⟩, ⟨none, 0⟩⟩

/-- A state holding a Politics domain with subject and role populated. -/
def statePoliticsHeld : DialogueState :=
  ⟨⟨some "Politics", 1⟩, ⟨some "India", 1⟩, ⟨some "Prime Minister", 1⟩, ⟨none, 0⟩⟩

/-- A frame sitting exactly at the clearing threshold. -/
def frameW : ContextFrame := ⟨some "India", 1/5⟩

/-- A concrete heap for the reference-level snapshot model. -/
def heap0 : FrameHeap :=
  [⟨some "Politics", 1⟩, ⟨some "India", 1⟩, ⟨some "Prime Minister", 1⟩, ⟨none, 0⟩]

/-- The live state owning the four frames of heap0 in order. -/
def refs0 : RefState := ⟨0, 1, 2, 3⟩

/-!
Helper lemmas shared by the claim theorems below.
-/

/-- Decay always multiplies the confidence by 17/20, whichever branch runs. -/
theorem decay_confidence (f : ContextFrame) :
    f.decay.confidence = f.confidence * (17/20) := by
  unfold ContextFrame.decay
  split <;> rfl

/-- Decay clears the value when the decayed confidence is below threshold. -/
theorem decay_value_none (f : ContextFrame)
    (h : f.confidence * (17/20) < 1/5) : f.decay.value = none := by
  unfold ContextFrame.decay
  rw [if_pos h]

/-- Decay keeps the value when the decayed confidence stays at or above the
threshold. -/
theorem decay_keep_value (f : ContextFrame)
    (h : ¬ f.confidence * (17/20) < 1/5) : f.decay.value = f.value := by
  unfold ContextFrame.decay
  rw [if_neg h]

/-- A freshly constructed frame is a fixed point of decay. -/
theorem decay_frame_empty : ContextFrame.decay emptyFrame = emptyFrame := by
  unfold ContextFrame.decay emptyFrame
  rw [if_pos (by norm_num)]
  norm_num

/-- The all-empty dialogue state is a fixed point of decay_all. -/
theorem decay_all_empty : DialogueState.decay_all emptyState = emptyState := by
  show (⟨ContextFrame.decay emptyFrame, ContextFrame.decay emptyFrame,
         ContextFrame.decay emptyFrame, ContextFrame.decay emptyFrame⟩ : DialogueState)
      = emptyState
  rw [decay_frame_empty]
  rfl

/-- After one whole-state decay of stateSports the held domain survives. -/
theorem decay_all_sports_value :
    (DialogueState.decay_all stateSports).domain.value = some "Sports" := by
  show (ContextFrame.decay ⟨some "Sports", 1⟩).value = some "Sports"
  rw [decay_keep_value]
  norm_num

/-- expand_query leaves the state exactly as it received it. -/
theorem expand_query_snd (t : String) (s : DialogueState) (a : String) :
    (expand_query t s a).2 = s := by
  unfold expand_query
  repeat first | rfl | split | dsimp only

/-- C1: for every ContextFrame, n applications of decay with no intervening
assignment leave the confidence at the initial confidence times (17/20)^n;
and once a decay drives the confidence below 1/5 (for a frame with
nonnegative confidence, as every frame the program builds has), the value is
none after that decay and stays none under all further decays. -/
theorem C1_decay_law (f : ContextFrame) (n : Nat) :
    (ContextFrame.decayN n f).confidence = f.confidence * (17/20)^n ∧
    (0 ≤ f.confidence → f.decay.confidence < 1/5 →
      ∀ m, 1 ≤ m → (ContextFrame.decayN m f).value = none) := by
  have conf_formula : ∀ k, (ContextFrame.decayN k f).confidence = f.confidence * (17/20)^k := by
    intro k
    induction k with
    | zero => simp [ContextFrame.decayN]
    | succ k ih =>
      show (ContextFrame.decay (ContextFrame.decayN k f)).confidence = _
      rw [decay_confidence, ih]
      ring
  refine ⟨conf_formula n, ?_⟩
  intro h0 h1 m hm
  rw [decay_confidence] at h1
  obtain ⟨k, rfl⟩ : ∃ k, m = k + 1 := ⟨m - 1, (Nat.succ_pred_eq_of_pos hm).symm⟩
  show (ContextFrame.decay (ContextFrame.decayN k f)).value = none
  apply decay_value_none
  rw [conf_formula k]
  have hp1 : (17/20 : ℚ)^k ≤ 1 := pow_le_one₀ (by norm_num) (by norm_num)
  have hp0 : (0 : ℚ) ≤ (17/20)^k := pow_nonneg (by norm_num) k
  nlinarith

/-- Witness for C1 at the concrete frame frameW with confidence 1/5: the
closed-form confidence after 2 decays, and a none value after 3 decays given
that the first decay already lands below the threshold. -/
theorem C1_decay_law_witness :
    (ContextFrame.decayN 2 frameW).confidence = frameW.confidence * (17/20)^2 ∧
    (0 : ℚ) ≤ frameW.confidence ∧
    (ContextFrame.decay frameW).confidence < 1/5 ∧
    (ContextFrame.decayN 3 frameW).value = none := by
  refine ⟨(C1_decay_law frameW 2).1, by norm_num [frameW], ?_, ?_⟩
  · rw [decay_confidence]
    norm_num [frameW]
  · exact (C1_decay_law frameW 0).2 (by norm_num [frameW])
      (by rw [decay_confidence]; norm_num [frameW]) 3 (by norm_num)

/-- C8: expand_query is pure and deterministic: it returns the state it was
given unchanged, and two invocations with identical text, state and act
return identical results. -/
theorem C8_expand_query_pure (t : String) (s : DialogueState) (a : String) :
    (expand_query t s a).2 = s ∧
    (∀ t2 s2 a2, t2 = t → s2 = s → a2 = a →
      expand_query t2 s2 a2 = expand_query t s a) := by
  refine ⟨expand_query_snd t s a, ?_⟩
  intro t2 s2 a2 h1 h2 h3
  rw [h1, h2, h3]

/-- Witness for C8 at a concrete continuation turn on a populated state. -/
theorem C8_expand_query_pure_witness :
    ("his duties?" = "his duties?" ∧ statePoliticsHeld = statePoliticsHeld ∧
      "contextual_continuation" = "contextual_continuation") ∧
    (expand_query "his duties?" statePoliticsHeld "contextual_continuation").2 = statePoliticsHeld ∧
    expand_query "his duties?" statePoliticsHeld "contextual_continuation"
      = expand_query "his duties?" statePoliticsHeld "contextual_continuation" :=
  ⟨⟨rfl, rfl, rfl⟩,
   (C8_expand_query_pure "his duties?" statePoliticsHeld "contextual_continuation").1,
   (C8_expand_query_pure "his duties?" statePoliticsHeld "contextual_continuation").2
     _ _ _ rfl rfl rfl⟩

/-- C10: the chit-chat keywords are matched as raw substrings of the
lower-cased (and stripped) input, and this check runs first, so any input
containing one of them anywhere, including inside a longer word, is
classified chit_chat whatever else the input contains. -/
theorem C10_chit_chat_substring (text : String)
    (h : (["thanks", "wait", "ok", "fine"].any
        (fun x => containsSubstr x (trimWs (lower text)))) = true) :
    detect_dialogue_act text = "chit_chat" := by
  unfold detect_dialogue_act
  rw [if_pos h]

/-- Witness for C10: an input whose only chit-chat keywords sit inside the
longer words look, finest and await, and which also contains the topic-shift
phrase now tell me and the continuation trigger token his; it is still
classified chit_chat. -/
theorem C10_chit_chat_substring_witness :
    (["thanks", "wait", "ok", "fine"].any
        (fun x => containsSubstr x (trimWs (lower "look now tell me about his finest work await")))) = true ∧
    containsSubstr "now tell me" (trimWs (lower "look now tell me about his finest work await")) = true ∧
    (splitWs (trimWs (lower "look now tell me about his finest work await"))).contains "his" = true ∧
    detect_dialogue_act "look now tell me about his finest work await" = "chit_chat" :=
  ⟨by decide, by decide, by decide, C10_chit_chat_substring _ (by decide)⟩

/-- C7 counterexample: the snapshot of the live state records the frames'
own attribute dicts (heap addresses), so a detector-driven assignment to the
live subject frame after the snapshot was taken changes what the snapshot
records: it read India before the mutation and France after, refuting the
deep-defensive-copy claim. -/
theorem C7_snapshot_counterexample :
    (read_snapshot heap0 (snapshot_refs refs0)).subject.value = some "India" ∧
    (read_state (assign_at heap0 refs0.subject "France") refs0).subject.value = some "France" ∧
    (read_snapshot (assign_at heap0 refs0.subject "France") (snapshot_refs refs0)).subject.value
      = some "France" ∧
    some "India" ≠ some "France" :=
  ⟨rfl, rfl, rfl, by decide⟩

/-- C7 amended: snapshot returns a fresh outer record, but its four entries
alias the live frames' attribute storage, so reading the snapshot always
yields the live frames' current contents on any heap, mutated or not. -/
theorem C7_snapshot_aliases (h : FrameHeap) (s : RefState) :
    read_snapshot h (snapshot_refs s) = read_state h s := rfl

/-- C2: when update_state_from_text resolves a truthy domain that differs
from the held one, subject, role and intent come out as fresh frames
repopulated only by this utterance's own detections: a detected value lands
with confidence 1 in the freshly emptied frame, and an undetected slot stays
the fresh empty frame; the domain frame is switched to the new domain. -/
theorem C2_reset_then_repopulate (clf : String → String) (text : String)
    (s : DialogueState)
    (h1 : truthy (normalize_domain (clf text)) = true)
    (h2 : normalize_domain (clf text) ≠ s.domain.value) :
    (update_state_from_text clf text s).subject
      = (if truthy (detect_subject text) then (⟨detect_subject text, 1⟩ : ContextFrame) else emptyFrame) ∧
    (update_state_from_text clf text s).role
      = (if truthy (detect_role text) then (⟨detect_role text, 1⟩ : ContextFrame) else emptyFrame) ∧
    (update_state_from_text clf text s).intent
      = (if truthy (detect_intent text) then (⟨detect_intent text, 1⟩ : ContextFrame) else emptyFrame) ∧
    (update_state_from_text clf text s).domain
      = ⟨normalize_domain (clf text), 1⟩ := by
  cases hs : truthy (detect_subject text) <;>
    cases hr : truthy (detect_role text) <;>
      cases hi : truthy (detect_intent text) <;>
        simp [update_state_from_text, h1, h2, hs, hr, hi]

/-- Witness for C2: the classifier predicts Politics while the state holds
Sports; the utterance itself mentions india, the prime minister and who, so
every dependent frame repopulates after the reset. -/
theorem C2_reset_then_repopulate_witness :
    truthy (normalize_domain (clfPolitics "who is the prime minister of india?")) = true ∧
    normalize_domain (clfPolitics "who is the prime minister of india?") ≠ stateSports.domain.value ∧
    (update_state_from_text clfPolitics "who is the prime minister of india?" stateSports).domain
      = ⟨normalize_domain (clfPolitics "who is the prime minister of india?"), 1⟩ :=
  ⟨by decide, by decide,
   (C2_reset_then_repopulate clfPolitics "who is the prime minister of india?" stateSports
      (by decide) (by decide)).2.2.2⟩

/-- C4: when the resolved domain is not truthy, or equals the currently held
domain value, update_state_from_text never resets subject, role or intent:
each of those frames is either overwritten in place by this utterance's
detection with confidence 1, or left exactly as it was. -/
theorem C4_no_reset_on_same_domain (clf : String → String) (text : String)
    (s : DialogueState)
    (h : truthy (normalize_domain (clf text)) = false
        ∨ normalize_domain (clf text) = s.domain.value) :
    (update_state_from_text clf text s).subject
      = (if truthy (detect_subject text) then (⟨detect_subject text, 1⟩ : ContextFrame) else s.subject) ∧
    (update_state_from_text clf text s).role
      = (if truthy (detect_role text) then (⟨detect_role text, 1⟩ : ContextFrame) else s.role) ∧
    (update_state_from_text clf text s).intent
      = (if truthy (detect_intent text) then (⟨detect_intent text, 1⟩ : ContextFrame) else s.intent) := by
  rcases h with h | h
  · cases hs : truthy (detect_subject text) <;>
      cases hr : truthy (detect_role text) <;>
        cases hi : truthy (detect_intent text) <;>
          simp [update_state_from_text, h, hs, hr, hi]
  · cases hs : truthy (detect_subject text) <;>
      cases hr : truthy (detect_role text) <;>
        cases hi : truthy (detect_intent text) <;>
          (simp [update_state_from_text, h, hs, hr, hi]
           all_goals (split <;> simp))

/-- Witness for C4: the classifier predicts the domain the state already
holds; the subject frame is overwritten in place by the detected india, and
none of the dependents is replaced by a fresh frame. -/
theorem C4_no_reset_on_same_domain_witness :
    (truthy (normalize_domain (clfPolitics "what about india")) = false
      ∨ normalize_domain (clfPolitics "what about india") = statePoliticsHeld.domain.value) ∧
    (update_state_from_text clfPolitics "what about india" statePoliticsHeld).role
      = (if truthy (detect_role "what about india")
          then (⟨detect_role "what about india", 1⟩ : ContextFrame) else statePoliticsHeld.role) :=
  ⟨Or.inr (by decide),
   (C4_no_reset_on_same_domain clfPolitics "what about india" statePoliticsHeld
      (Or.inr (by decide))).2.1⟩

/-- C9: a chit_chat turn short-circuits: process_turn returns no expansion,
the forced ("General", "NA") topic, the note chit_chat, no answer, and a
snapshot of the once-decayed state; the final state is exactly the decayed
input state, so no slot is assigned or reset beyond the per-turn decay. -/
theorem C9_chit_chat_short_circuit (clf : String → String) (text : String)
    (s : DialogueState) (h : detect_dialogue_act text = "chit_chat") :
    process_turn clf text s
      = (⟨none, ("General", "NA"), some "chit_chat", none,
           (DialogueState.decay_all s).snapshot⟩, DialogueState.decay_all s) := by
  simp only [process_turn]
  rw [if_pos h]

/-- Witness for C9: the input thanks on the empty state. -/
theorem C9_chit_chat_short_circuit_witness :
    detect_dialogue_act "thanks" = "chit_chat" ∧
    process_turn clfPolitics "thanks" emptyState
      = (⟨none, ("General", "NA"), some "chit_chat", none,
           (DialogueState.decay_all emptyState).snapshot⟩, DialogueState.decay_all emptyState) :=
  ⟨by decide, C9_chit_chat_short_circuit clfPolitics "thanks" emptyState (by decide)⟩

/-- C3: on a contextual_continuation turn, when the raw classifier
prediction is truthy and differs from the (post-decay) held domain value the
final state is the full update of the decayed state; otherwise the final
state is that update with the domain value overwritten back to the
post-decay domain value, so the held domain value cannot change on a vague
continuation. -/
theorem C3_continuation_guard (clf : String → String) (text : String)
    (s : DialogueState)
    (h : detect_dialogue_act text = "contextual_continuation") :
    ((clf text ≠ "" ∧ (some (clf text) : Option String)
        ≠ (DialogueState.decay_all s).domain.value) →
      (process_turn clf text s).2
        = update_state_from_text clf text (DialogueState.decay_all s)) ∧
    (¬ (clf text ≠ "" ∧ (some (clf text) : Option String)
        ≠ (DialogueState.decay_all s).domain.value) →
      (process_turn clf text s).2
        = ⟨⟨(DialogueState.decay_all s).domain.value,
             (update_state_from_text clf text (DialogueState.decay_all s)).domain.confidence⟩,
           (update_state_from_text clf text (DialogueState.decay_all s)).subject,
           (update_state_from_text clf text (DialogueState.decay_all s)).role,
           (update_state_from_text clf text (DialogueState.decay_all s)).intent⟩ ∧
      ((process_turn clf text s).2).domain.value
        = (DialogueState.decay_all s).domain.value) := by
  have hchit : ¬ detect_dialogue_act text = "chit_chat" := by
    rw [h]
    decide
  constructor
  · intro hc
    simp only [process_turn]
    rw [if_neg hchit, if_pos h, expand_query_snd]
    unfold continuation_update
    rw [if_pos hc]
  · intro hc
    have hfinal : (process_turn clf text s).2
        = ⟨⟨(DialogueState.decay_all s).domain.value,
             (update_state_from_text clf text (DialogueState.decay_all s)).domain.confidence⟩,
           (update_state_from_text clf text (DialogueState.decay_all s)).subject,
           (update_state_from_text clf text (DialogueState.decay_all s)).role,
           (update_state_from_text clf text (DialogueState.decay_all s)).intent⟩ := by
      simp only [process_turn]
      rw [if_neg hchit, if_pos h, expand_query_snd]
      unfold continuation_update
      rw [if_neg hc]
    refine ⟨hfinal, ?_⟩
    rw [hfinal]

/-- Witness for C3 in the disguised-topic-switch branch: the state holds
Sports, the classifier predicts Politics on a continuation utterance, and
the final state is the full update of the decayed state. -/
theorem C3_continuation_guard_witness :
    detect_dialogue_act "what about the uk?" = "contextual_continuation" ∧
    (clfPolitics "what about the uk?" ≠ "" ∧
      (some (clfPolitics "what about the uk?") : Option String)
        ≠ (DialogueState.decay_all stateSports).domain.value) ∧
    (process_turn clfPolitics "what about the uk?" stateSports).2
      = update_state_from_text clfPolitics "what about the uk?"
          (DialogueState.decay_all stateSports) := by
  have hc : clfPolitics "what about the uk?" ≠ "" ∧
      (some (clfPolitics "what about the uk?") : Option String)
        ≠ (DialogueState.decay_all stateSports).domain.value := by
    refine ⟨by decide, ?_⟩
    rw [decay_all_sports_value]
    decide
  exact ⟨by decide, hc,
    (C3_continuation_guard clfPolitics "what about the uk?" stateSports (by decide)).1 hc⟩

/-- C5 amended: for every non-chit-chat turn the returned topic follows
assign_topic over the post-update state: a truthy held domain value is
paired with the held subject value or "NA", but with no truthy domain value
the topic is ("General", "NA") even when a subject is held. -/
theorem C5_topic_policy (clf : String → String) (text : String)
    (s : DialogueState) (h : detect_dialogue_act text ≠ "chit_chat") :
    (process_turn clf text s).1.topic =
      (match ((process_turn clf text s).2).domain.value with
       | some d => if d = "" then ("General", "NA")
                   else (d, pyOr ((process_turn clf text s).2).subject.value "NA")
       | none => ("General", "NA")) := by
  simp only [process_turn]
  rw [if_neg h]
  rfl

/-- Witness for C5's amended statement at a concrete fresh_query turn. -/
theorem C5_topic_policy_witness :
    detect_dialogue_act "is germany nice place" ≠ "chit_chat" ∧
    (process_turn clfUnknown "is germany nice place" emptyState).1.topic =
      (match ((process_turn clfUnknown "is germany nice place" emptyState).2).domain.value with
       | some d => if d = "" then ("General", "NA")
                   else (d, pyOr ((process_turn clfUnknown "is germany nice place" emptyState).2).subject.value "NA")
       | none => ("General", "NA")) :=
  ⟨by decide, C5_topic_policy clfUnknown "is germany nice place" emptyState (by decide)⟩

/-- C5 counterexample: a fresh_query turn on the empty state with an
Unknown-predicting classifier detects the subject Germany but no domain; the
returned topic is ("General", "NA"), not the ("General", "Germany") the
claim's formula (domain or General, subject or NA) would give. -/
theorem C5_topic_counterexample :
    (process_turn clfUnknown "is germany nice place" emptyState).1.topic = ("General", "NA") ∧
    ((process_turn clfUnknown "is germany nice place" emptyState).2).subject.value = some "Germany" ∧
    ((process_turn clfUnknown "is germany nice place" emptyState).2).domain.value = none ∧
    topic_claim (process_turn clfUnknown "is germany nice place" emptyState).2 = ("General", "Germany") ∧
    (process_turn clfUnknown "is germany nice place" emptyState).1.topic
      ≠ topic_claim (process_turn clfUnknown "is germany nice place" emptyState).2 := by
  have hpt : process_turn clfUnknown "is germany nice place" emptyState
      = (⟨none, ("General", "NA"), none, none,
           ⟨emptyFrame, ⟨some "Germany", 1⟩, emptyFrame, emptyFrame⟩⟩,
         ⟨emptyFrame, ⟨some "Germany", 1⟩, emptyFrame, emptyFrame⟩) := by
    simp only [process_turn]
    rw [decay_all_empty]
    rfl
  refine ⟨?_, ?_, ?_, ?_, ?_⟩
  · rw [hpt]
  · rw [hpt]
  · rw [hpt]
    rfl
  · rw [hpt]
    rfl
  · rw [hpt]
    decide

/-- C6 amended: when no configured country name occurs as a substring of the
lower-cased input, detect_subject removes every question mark and period
(commas and exclamation marks are untouched), splits on whitespace, returns
none only when no words remain (there is no three-word minimum), and
otherwise returns the title-cased last word unless it is in the stop-word
block list. -/
theorem C6_fallback_behavior (text : String)
    (h : ∀ c ∈ COUNTRIES, containsSubstr c (lower text) = false) :
    detect_subject text = subject_fallback text := by
  have hf : COUNTRIES.find? (fun c => containsSubstr c (lower text)) = none := by
    rw [List.find?_eq_none]
    intro c hc
    rw [h c hc]
    exact Bool.false_ne_true
  unfold detect_subject subject_fallback
  dsimp only
  rw [hf]
  cases hw : splitWs (removeChar '.' (removeChar '?' (lower text))) with
  | nil => simp
  | cons a l =>
    cases hl : (a :: l).getLast? with
    | none => exact absurd hl (by simp)
    | some w => simp [hl]

/-- Witness for C6's amended statement on an input with no country name. -/
theorem C6_fallback_behavior_witness :
    (∀ c ∈ COUNTRIES, containsSubstr c (lower "tell me more things") = false) ∧
    detect_subject "tell me more things" = subject_fallback "tell me more things" :=
  ⟨by decide, C6_fallback_behavior "tell me more things" (by decide)⟩

/-- C6 counterexample: the one-word input paris matches no country; the
claim's fallback (at least 3 words required) returns none, but the code
returns Paris: there is no three-word minimum in the source, whose only
emptiness check is that some word remains. -/
theorem C6_fallback_counterexample :
    (∀ c ∈ COUNTRIES, containsSubstr c (lower "paris") = false) ∧
    subject_fallback_claim "paris" = none ∧
    detect_subject "paris" = some "Paris" ∧
    some "Paris" ≠ (none : Option String) :=
  ⟨by decide, rfl, rfl, by decide⟩
